import Mathlib

/-!
Verification development for the immudb-py client-side trust layer.

This file shallowly embeds the two verified-operation orchestrators of the
repository — `immudb/handler/safeGet.py` (`call`, the verifiedGet
orchestrator) and `immu/handler/safeSet.py` (`call`) — together with the
generic protobuf-response converter `immudb/dataconverter.py`
(`convertResponse`).

The cryptographic and conversion primitives the orchestrators call
(`store.EncodeKV`, `store.EncodeReference`, `store.DigestFrom`,
`store.VerifyInclusion`, `store.VerifyDualProof`, `htree.InclusionProofFrom`,
`htree.DualProofFrom`, `TxMetadata.alh`, `item.digest`, `proofs.verify`,
protobuf serialization) live in modules outside the sources embedded here;
the orchestrators treat them as black boxes, so they are abstracted as an
arbitrary record of pure functions (`Crypto`).  Every control-flow and
data-flow decision the orchestrators themselves make is translated
line-by-line from the Python source.  The `breakpoint()` debugger hook in
`safeGet.py` is modelled as a no-op (it alters no data and no control flow
on resumption).
-/

/-- Byte strings are modelled as lists of naturals. -/
abbrev Bytes := List Nat

/-- `schema_pb2.ImmutableState` — the trust anchor held by the root service
for the v2 (`immudb`) client: `txId`, `txHash` and a server signature. -/
structure ImmutableState where
  txId : Nat
  txHash : Bytes
  signature : Bytes
deriving DecidableEq, Repr

/-- `schema_pb2.Root` — the trust anchor of the v1 (`immu`) client:
a tree `index` and a `root` digest. -/
structure Root where
  index : Nat
  root : Bytes
deriving DecidableEq, Repr

/-- The `referencedBy` sub-message of a returned entry: the referring key,
the transaction that wrote the reference, and the referred transaction. -/
structure ReferencedBy where
  key : Bytes
  tx : Nat
  atTx : Nat
deriving DecidableEq, Repr

/-- The `entry` sub-message of a `VerifiableGet` response.  `referencedBy`
is `none` when the field is absent (the Python code also treats an empty
`referencedBy.key` as absence). -/
structure Entry where
  tx : Nat
  key : Bytes
  value : Bytes
  referencedBy : Option ReferencedBy
deriving DecidableEq, Repr

/-- Per-transaction metadata carried inside a dual proof (`TxMetadata`):
the fields read by the orchestrator (`eH` directly, the rest through the
`alh` accumulation primitive). -/
structure TxMetadata where
  id : Nat
  prevAlh : Bytes
  ts : Nat
  nentries : Nat
  eH : Bytes
  blTxId : Nat
  blRoot : Bytes
deriving DecidableEq, Repr

/-- An inclusion proof: leaf position, tree width and the audit path. -/
structure InclusionProof where
  leaf : Nat
  width : Nat
  terms : List Bytes
deriving DecidableEq, Repr

/-- A dual (consistency) proof: the two transaction metadata records plus
the proof paths, which the orchestrator passes through opaquely. -/
structure DualProof where
  sourceTxMetadata : TxMetadata
  targetTxMetadata : TxMetadata
  inclusionProof : List Bytes
  consistencyProof : List Bytes
  targetBlTxAlh : Bytes
  lastInclusionProof : List Bytes
  linearProofTerms : List Bytes
deriving DecidableEq, Repr

/-- `schema_pb2.KeyRequest`. -/
structure KeyRequest where
  key : Bytes
deriving DecidableEq, Repr

/-- `schema_pb2.VerifiableGetRequest` — the single RPC request built by
`safeGet.call`. -/
structure VerifiableGetRequest where
  keyRequest : KeyRequest
  proveSinceTx : Nat
deriving DecidableEq, Repr

/-- The `metadata` sub-message of `verifiableTx.tx` (only `ts` is read). -/
structure TxMsgMetadata where
  ts : Nat
deriving DecidableEq, Repr

/-- The `tx` sub-message of `verifiableTx`. -/
structure TxMsg where
  metadata : TxMsgMetadata
deriving DecidableEq, Repr

/-- The `verifiableTx` sub-message of a `VerifiableGet` response. -/
structure VerifiableTx where
  tx : TxMsg
  dualProof : DualProof
  signature : Bytes
deriving DecidableEq, Repr

/-- A `VerifiableGet` response (`ventry` in the Python source). -/
structure VerifiableEntry where
  entry : Entry
  verifiableTx : VerifiableTx
  inclusionProof : InclusionProof
deriving DecidableEq, Repr

/-- The dataclass returned by `safeGet.call`. -/
structure SafeGetResponse where
  index : Nat
  key : Bytes
  value : Bytes
  timestamp : Nat
  verified : Bool
  refkey : Option Bytes
deriving DecidableEq, Repr

/-- `schema_pb2.Content` built by `safeSet.call`: a timestamp plus the
payload bytes. -/
structure Content where
  timestamp : Nat
  payload : Bytes
deriving DecidableEq, Repr

/-- `schema_pb2.StructuredKeyValue`. -/
structure StructuredKeyValue where
  key : Bytes
  value : Content
deriving DecidableEq, Repr

/-- `schema_pb2.SafeSetSVOptions` — the raw request sent by `safeSet.call`
(`rootIndex` carries the index of the cached root). -/
structure SafeSetSVOptions where
  skv : StructuredKeyValue
  rootIndex : Nat
deriving DecidableEq, Repr

/-- The proof message returned by the `SafeSetSV` RPC (`msg` in the
source): its `leaf` field is a server-supplied leaf digest. -/
structure SafeSetMsg where
  index : Nat
  leaf : Bytes
  root : Bytes
  at_ : Nat
  inclusionPath : Bytes
  consistencyPath : Bytes
deriving DecidableEq, Repr

/-- The dataclass returned by `safeSet.call`. -/
structure SafeSetResponse where
  index : Nat
  leaf : Bytes
  root : Bytes
  at_ : Nat
  inclusionPath : Bytes
  consistencyPath : Bytes
  verified : Bool
deriving DecidableEq, Repr

/-- The Python exceptions the two orchestrators can raise:
`immudb.exceptions.VerificationException` (a dedicated verification error
type) and a plain `Exception(message)`. -/
inductive PyError where
  | verificationException : PyError
  | genericException : String → PyError
deriving DecidableEq, Repr

/-- Modelled from the spec: the cryptographic and conversion primitives
(`store.EncodeKV`, `store.EncodeReference`, `store.DigestFrom`,
`TxMetadata.alh`, `htree.InclusionProofFrom`, `htree.DualProofFrom`,
`store.VerifyInclusion`, `store.VerifyDualProof`, `item.digest`,
`proofs.verify`, protobuf `SerializeToString`) are implemented outside the
embedded sources; the spec treats them as deterministic side-effect-free
library calls, so they are modelled as an arbitrary record of pure
functions over which every theorem quantifies. -/
structure Crypto where
  encodeKV : Bytes → Bytes → Bytes
  encodeReference : Bytes → Bytes → Nat → Bytes
  kvDigest : Bytes → Bytes
  digestFrom : Bytes → Bytes
  alh : TxMetadata → Bytes
  inclusionProofFrom : InclusionProof → InclusionProof
  dualProofFrom : DualProof → DualProof
  verifyInclusion : InclusionProof → Bytes → Bytes → Bool
  verifyDualProof : DualProof → Nat → Nat → Bytes → Bytes → Bool
  itemDigest : Nat → Bytes → Bytes → Bytes
  proofsVerify : SafeSetMsg → Bytes → Root → Bool
  serializeContent : Content → Bytes

/-- Whether an `Except` result is a success (`ok`). -/
def okE {α : Type} : Except PyError α → Bool
  | .ok _ => true
  | .error _ => false

/-- The `VerifiableGetRequest` built at the top of `safeGet.call`:
the requested key plus `proveSinceTx = state.txId` (lines 21–24). -/
def safeGetReq (state : ImmutableState) (requestkey : Bytes) : VerifiableGetRequest :=
  ⟨⟨requestkey⟩, state.txId⟩

/-- Lines 29–34 of `safeGet.py`: selects the transaction id the response
targets and the encoded key/value the leaf digest is computed from.  A
plain entry (no `referencedBy`, or an empty `referencedBy.key`) uses
`EncodeKV(requestkey, entry.value)` and `entry.tx`; a reference entry uses
`EncodeReference(referencedBy.key, entry.key, referencedBy.atTx)` and
`referencedBy.tx`. -/
def safeGetVTxKv (c : Crypto) (requestkey : Bytes) (e : Entry) : Nat × Bytes :=
  match e.referencedBy with
  | none => (e.tx, c.encodeKV requestkey e.value)
  | some rb =>
    if rb.key = [] then (e.tx, c.encodeKV requestkey e.value)
    else (rb.tx, c.encodeReference rb.key e.key rb.atTx)

/-- The five direction-dependent verification parameters. -/
structure DirParams where
  eh : Bytes
  sourceid : Nat
  sourcealh : Bytes
  targetid : Nat
  targetalh : Bytes
deriving DecidableEq, Repr

/-- Lines 36–47 of `safeGet.py`: direction handling.  When the trusted
`state.txId` is ≤ the targeted transaction `vTx`, the source role is the
trusted state and the target role is the new state, with `eh` taken from
the raw `targetTxMetadata`; otherwise the roles are swapped and `eh` is
taken from the raw `sourceTxMetadata`.  `raw` is the wire-level dual proof
(whose `eH` bytes are read directly) and `conv` the converted one (whose
`alh` accumulator is invoked). -/
def safeGetDirection (c : Crypto) (state : ImmutableState) (vTx : Nat)
    (raw conv : DualProof) : DirParams :=
  if state.txId ≤ vTx then
    ⟨c.digestFrom raw.targetTxMetadata.eH, state.txId, c.digestFrom state.txHash,
      vTx, c.alh conv.targetTxMetadata⟩
  else
    ⟨c.digestFrom raw.sourceTxMetadata.eH, vTx, c.alh conv.sourceTxMetadata,
      state.txId, c.digestFrom state.txHash⟩

/-- The direction parameters `safeGet.call` computes for the response
`ventry` (lines 36–47): the target transaction id comes from
`safeGetVTxKv`, the raw dual proof supplies the `eH` bytes and the
converted one the `alh` accumulator. -/
def safeGetDir (c : Crypto) (state : ImmutableState) (requestkey : Bytes)
    (ventry : VerifiableEntry) : DirParams :=
  safeGetDirection c state (safeGetVTxKv c requestkey ventry.entry).1
    ventry.verifiableTx.dualProof (c.dualProofFrom ventry.verifiableTx.dualProof)

/-- Line 49 of `safeGet.py`: the inclusion check
`store.VerifyInclusion(inclusionProof, kv.Digest(), eh)` — its leaf-digest
argument is the locally recomputed `kv.Digest()`. -/
def safeGetInclusionCheck (c : Crypto) (state : ImmutableState) (requestkey : Bytes)
    (ventry : VerifiableEntry) : Bool :=
  c.verifyInclusion (c.inclusionProofFrom ventry.inclusionProof)
    (c.kvDigest (safeGetVTxKv c requestkey ventry.entry).2)
    (safeGetDir c state requestkey ventry).eh

/-- Lines 52–57 of `safeGet.py`: the dual-proof check
`store.VerifyDualProof(dualProof, sourceid, targetid, sourcealh, targetalh)`. -/
def safeGetDualCheck (c : Crypto) (state : ImmutableState) (requestkey : Bytes)
    (ventry : VerifiableEntry) : Bool :=
  c.verifyDualProof (c.dualProofFrom ventry.verifiableTx.dualProof)
    (safeGetDir c state requestkey ventry).sourceid
    (safeGetDir c state requestkey ventry).targetid
    (safeGetDir c state requestkey ventry).sourcealh
    (safeGetDir c state requestkey ventry).targetalh

/-- Lines 26–79 of `safeGet.py`: everything `safeGet.call` does with the
server response `ventry` after the RPC returns, translated line-by-line.
Result: the list of states handed to `rs.set` and the call outcome
(`VerificationException` or the returned dataclass). -/
def safeGetProcess (c : Crypto) (state : ImmutableState) (requestkey : Bytes)
    (ventry : VerifiableEntry) :
    List ImmutableState × Except PyError SafeGetResponse :=
  let vk := safeGetVTxKv c requestkey ventry.entry
  let dir := safeGetDir c state requestkey ventry
  if safeGetInclusionCheck c state requestkey ventry = false then
    ([], .error .verificationException)
  else if safeGetDualCheck c state requestkey ventry = false then
    ([], .error .verificationException)
  else
    let newState : ImmutableState := ⟨dir.targetid, dir.targetalh, ventry.verifiableTx.signature⟩
    let refkey : Option Bytes :=
      match ventry.entry.referencedBy with
      | some rb => if rb.key = [] then none else some rb.key
      | none => none
    ([newState],
      .ok ⟨vk.1, ventry.entry.key, ventry.entry.value,
           ventry.verifiableTx.tx.metadata.ts, safeGetDualCheck c state requestkey ventry, refkey⟩)

/-- `safeGet.call` (the verifiedGet orchestrator): build the request from
the loaded trust state, issue the single RPC, and process the response.
Result: the list of RPC requests issued, the list of states handed to
`rs.set`, and the call outcome. -/
def safeGetCall (c : Crypto) (service : VerifiableGetRequest → VerifiableEntry)
    (state : ImmutableState) (requestkey : Bytes) :
    List VerifiableGetRequest × List ImmutableState × Except PyError SafeGetResponse :=
  let req := safeGetReq state requestkey
  let ventry := service req
  ([req], safeGetProcess c state requestkey ventry)

/-- The message of the plain `Exception` raised by `safeSet.call` on a
leaf-digest mismatch. -/
def proofMismatchMsg : String := ("Proof does not match the given item.")

/-- Lines 22–30 of `safeSet.py`: the raw `SafeSetSV` request — the key, a
`Content` wrapping the payload with the current time, and the cached
root's index. -/
def safeSetRawRequest (root : Root) (now : Nat) (k v : Bytes) : SafeSetSVOptions :=
  ⟨⟨k, ⟨now, v⟩⟩, root.index⟩

/-- Line 33 of `safeSet.py`: the locally recomputed item digest
`item.digest(msg.index, rawRequest.skv.key, rawRequest.skv.value.SerializeToString())`. -/
def safeSetLocalDigest (c : Crypto) (rawRequest : SafeSetSVOptions) (msg : SafeSetMsg) : Bytes :=
  c.itemDigest msg.index rawRequest.skv.key (c.serializeContent rawRequest.skv.value)

/-- Lines 33–58 of `safeSet.py`: everything `safeSet.call` does with the
server proof message `msg` after the RPC returns, translated
line-by-line.  Result: the list of roots handed to `rs.set` and the call
outcome.  Note that after a passing digest guard the value passed
downstream to `proofs.verify` is the server-supplied `msg.leaf` (line 37
of the source). -/
def safeSetProcess (c : Crypto) (root : Root) (rawRequest : SafeSetSVOptions)
    (msg : SafeSetMsg) : List Root × Except PyError SafeSetResponse :=
  let digest := safeSetLocalDigest c rawRequest msg
  if msg.leaf ≠ digest then
    ([], .error (.genericException proofMismatchMsg))
  else
    let verified := c.proofsVerify msg msg.leaf root
    ((if verified then [⟨msg.index, msg.root⟩] else []),
      .ok ⟨msg.index, msg.leaf, msg.root, msg.at_, msg.inclusionPath, msg.consistencyPath, verified⟩)

/-- `safeSet.call`: build the raw request from the cached root, issue the
RPC, and process the returned proof message. -/
def safeSetCall (c : Crypto) (service : SafeSetSVOptions → SafeSetMsg)
    (root : Root) (now : Nat) (k v : Bytes) :
    List Root × Except PyError SafeSetResponse :=
  let rawRequest := safeSetRawRequest root now k v
  let msg := service rawRequest
  safeSetProcess c root rawRequest msg

/-- Modelled from the spec: the spec's step 3 demands that "only the
locally recomputed one is used downstream" — this variant of
`safeSetProcess` differs from the source only in passing the locally
recomputed digest (instead of the server-supplied `msg.leaf`) to
`proofs.verify`.  It is the comparison point for the refinement theorem of
claim C1. -/
def safeSetProcessSpecDigest (c : Crypto) (root : Root) (rawRequest : SafeSetSVOptions)
    (msg : SafeSetMsg) : List Root × Except PyError SafeSetResponse :=
  let digest := safeSetLocalDigest c rawRequest msg
  if msg.leaf ≠ digest then
    ([], .error (.genericException proofMismatchMsg))
  else
    let verified := c.proofsVerify msg digest root
    ((if verified then [⟨msg.index, msg.root⟩] else []),
      .ok ⟨msg.index, msg.leaf, msg.root, msg.at_, msg.inclusionPath, msg.consistencyPath, verified⟩)

/-- A Python runtime value as seen by `dataconverter.convertResponse`:
a primitive scalar (int, str, bytes, ...), a protobuf message (whose set
fields `ListFields()` returns in order), a protobuf
`RepeatedCompositeContainer`, a plain Python `list`, or an already
converted `datatypesv2` dataclass. -/
inductive PyVal where
  | prim (cls : String) (val : Nat)
  | message (cls : String) (fields : List (String × PyVal))
  | repeated (items : List PyVal)
  | pyList (items : List PyVal)
  | dataclass (cls : String) (fields : List (String × PyVal))

/-- `value.__class__.__name__` for each shape of `PyVal`. -/
def PyVal.className : PyVal → String
  | .prim cls _ => cls
  | .message cls _ => cls
  | .repeated _ => ("RepeatedCompositeContainer")
  | .pyList _ => ("list")
  | .dataclass cls _ => cls

mutual
/-- `dataconverter.convertResponse`, translated line-by-line.  `known` is
the set of class names defined in the `datatypesv2` module (modelled
abstractly; the module is a collection of dataclasses mirroring protobuf
message types, so only message class names can hit the lookup — primitive,
`list` and already-converted class names are never among them). -/
def convertResponse (known : List String) : PyVal → PyVal
  | .repeated items => .pyList (convertList known items)
  | .message cls fields =>
    if known.contains cls then .dataclass cls (convertFields known fields)
    else .message cls fields
  | .prim cls val => .prim cls val
  | .pyList items => .pyList items
  | .dataclass cls fields => .dataclass cls fields

/-- Element-wise conversion of a repeated container's items. -/
def convertList (known : List String) : List PyVal → List PyVal
  | [] => []
  | v :: vs => convertResponse known v :: convertList known vs

/-- Field-wise conversion of a message's `ListFields()` output. -/
def convertFields (known : List String) : List (String × PyVal) → List (String × PyVal)
  | [] => []
  | (n, v) :: fs => (n, convertResponse known v) :: convertFields known fs
end

/-- A concrete crypto instance for witnesses and counterexamples: injective
toy encodings and verifiers that always accept. -/
def cTrue : Crypto where
  encodeKV := fun k v => 0 :: (k ++ v)
  encodeReference := fun rk k n => 1 :: (rk ++ k ++ [n])
  kvDigest := fun b => 2 :: b
  digestFrom := fun b => b
  alh := fun m => m.eH
  inclusionProofFrom := fun p => p
  dualProofFrom := fun p => p
  verifyInclusion := fun _ _ _ => true
  verifyDualProof := fun _ _ _ _ _ => true
  itemDigest := fun i k v => i :: (k ++ v)
  proofsVerify := fun _ _ _ => true
  serializeContent := fun ct => ct.timestamp :: ct.payload

/-- Like `cTrue` but the inclusion check always rejects. -/
def cFailInc : Crypto := { cTrue with verifyInclusion := fun _ _ _ => false }

/-- Like `cTrue` but the dual-proof check always rejects. -/
def cFailDual : Crypto := { cTrue with verifyDualProof := fun _ _ _ _ _ => false }

/-- Like `cTrue` but the combined `proofs.verify` check always rejects. -/
def cNoProof : Crypto := { cTrue with proofsVerify := fun _ _ _ => false }

/-- A concrete cached root for the v1 client. -/
def rootZ : Root := ⟨0, []⟩

/-- A concrete transaction metadata record. -/
def tmA : TxMetadata := ⟨1, [], 0, 1, [3], 0, []⟩

/-- A concrete dual proof built from `tmA`. -/
def dpA : DualProof := ⟨tmA, tmA, [], [], [], [], []⟩

/-- A concrete plain (non-reference) entry targeting transaction 7. -/
def entryPlain : Entry := ⟨7, [1], [2], none⟩

/-- A concrete reference entry (non-empty `referencedBy.key`). -/
def entryRef : Entry := ⟨7, [1], [2], some ⟨[8], 5, 4⟩⟩

/-- A concrete `VerifiableGet` response wrapping `entryPlain`. -/
def ventryA : VerifiableEntry := ⟨entryPlain, ⟨⟨⟨11⟩⟩, dpA, [4]⟩, ⟨0, 1, []⟩⟩

/-- A concrete loaded trust state with `txId = 3`. -/
def stA : ImmutableState := ⟨3, [9], []⟩

/-- A concrete `SafeSetSV` proof message whose server-supplied `leaf`
equals the digest `cTrue.itemDigest` recomputes for the request
`safeSetRawRequest rootZ 0 [5] [6]`. -/
def msgOkLeaf : SafeSetMsg := ⟨1, [1, 5, 0, 6], [7], 2, [], []⟩

/-- The same proof message with only the server-supplied `leaf` changed to
a value that does not match the locally recomputed digest. -/
def msgBadLeaf : SafeSetMsg := ⟨1, [9], [7], 2, [], []⟩

/-- `convertList` is exactly `List.map` of `convertResponse`. -/
theorem convertList_eq_map (known : List String) :
    ∀ l : List PyVal, convertList known l = l.map (convertResponse known) := by
  intro l
  induction l with
  | nil => simp [convertList]
  | cons v vs ih => simp [convertList, ih]

/-- Claim C7: every call to verifiedGet (`safeGet.call`) issues exactly one
`VerifiableGet` RPC, and the `proveSinceTx` field of its request equals the
`txId` of the trust state loaded from the root service at the start of the
call. -/
theorem c7_single_rpc (c : Crypto) (service : VerifiableGetRequest → VerifiableEntry)
    (state : ImmutableState) (key : Bytes) :
    (safeGetCall c service state key).1 = [safeGetReq state key] ∧
    (safeGetReq state key).proveSinceTx = state.txId :=
  ⟨rfl, rfl⟩

/-- Claim C3: direction handling of verifiedGet.  When the cached trusted
`txId` is ≤ the transaction id `vTx` the response targets, the dual proof
runs with source = trusted state (`sourceid = state.txId`,
`sourcealh = DigestFrom state.txHash`) and target = new state
(`targetid = vTx`, `targetalh = alh targetTxMetadata`), the entries root
`eh` coming from `targetTxMetadata`; otherwise the roles are exchanged and
`eh` comes from `sourceTxMetadata`.  The final conjunct ties the
parameters to the call: in both directions the same inclusion and
dual-proof checks, applied to these parameters, decide the outcome. -/
theorem c3_direction (c : Crypto) (state : ImmutableState) (key : Bytes)
    (ventry : VerifiableEntry) (vTx : Nat) (raw conv : DualProof) :
    (state.txId ≤ vTx →
      safeGetDirection c state vTx raw conv =
        ⟨c.digestFrom raw.targetTxMetadata.eH, state.txId, c.digestFrom state.txHash,
          vTx, c.alh conv.targetTxMetadata⟩) ∧
    (vTx < state.txId →
      safeGetDirection c state vTx raw conv =
        ⟨c.digestFrom raw.sourceTxMetadata.eH, vTx, c.alh conv.sourceTxMetadata,
          state.txId, c.digestFrom state.txHash⟩) ∧
    (okE (safeGetProcess c state key ventry).2 =
      (safeGetInclusionCheck c state key ventry && safeGetDualCheck c state key ventry)) := by
  refine ⟨?_, ?_, ?_⟩
  · intro h
    simp [safeGetDirection, h]
  · intro h
    simp [safeGetDirection, Nat.not_le.mpr h]
  · simp only [safeGetProcess]
    split
    · rename_i h1
      simp [okE, h1]
    · rename_i h1
      split
      · rename_i h2
        simp [okE, h1, h2]
      · rename_i h2
        simp only [Bool.not_eq_false] at h1 h2
        simp [okE, h1, h2]

/-- Claim C6: in verifiedGet, when the response entry has no non-empty
`referencedBy.key` the leaf digest is computed over the requested key and
the entry value via `store.EncodeKV`; when the entry is a reference, the
leaf digest is computed over the referring key, the referred key and the
referred transaction id via `store.EncodeReference`. -/
theorem c6_leaf_encoding (c : Crypto) (key : Bytes) (e : Entry) :
    (e.referencedBy = none →
      c.kvDigest (safeGetVTxKv c key e).2 = c.kvDigest (c.encodeKV key e.value)) ∧
    (∀ rb, e.referencedBy = some rb → rb.key = [] →
      c.kvDigest (safeGetVTxKv c key e).2 = c.kvDigest (c.encodeKV key e.value)) ∧
    (∀ rb, e.referencedBy = some rb → rb.key ≠ [] →
      c.kvDigest (safeGetVTxKv c key e).2 =
        c.kvDigest (c.encodeReference rb.key e.key rb.atTx)) := by
  refine ⟨?_, ?_, ?_⟩
  · intro h
    simp [safeGetVTxKv, h]
  · intro rb h hk
    simp [safeGetVTxKv, h, hk]
  · intro rb h hk
    simp [safeGetVTxKv, h, hk]

/-- Claim C9: on every successful verifiedGet call, the `txId` of the
state handed to `rs.set` equals the maximum of the `txId` loaded at entry
and the transaction id the response targets; in particular it is never
smaller than the loaded `txId`.  (Failing calls hand nothing to `rs.set`,
so the statement quantifies over every written state.) -/
theorem c9_written_txid_is_max (c : Crypto) (state : ImmutableState) (key : Bytes)
    (ventry : VerifiableEntry) :
    ∀ s ∈ (safeGetProcess c state key ventry).1,
      s.txId = max state.txId (safeGetVTxKv c key ventry.entry).1 ∧
      state.txId ≤ s.txId := by
  intro s hs
  simp only [safeGetProcess] at hs
  split at hs
  · simp at hs
  · split at hs
    · simp at hs
    · simp only [List.mem_singleton] at hs
      subst hs
      simp only [safeGetDir, safeGetDirection]
      split
      · rename_i h
        exact ⟨(Nat.max_eq_right h).symm, h⟩
      · rename_i h
        exact ⟨(Nat.max_eq_left (Nat.le_of_not_le h)).symm, Nat.le_refl _⟩

/-- Claim C2: whenever the leaf-digest check, the inclusion check or the
dual-proof check fails, the trust-anchor cache is left untouched — neither
verifiedGet (`safeGet.call`) nor `safeSet.call` invokes `rs.set` on any
failing path. -/
theorem c2_failure_leaves_cache (c : Crypto) (state : ImmutableState) (key : Bytes)
    (ventry : VerifiableEntry) (root : Root) (rawRequest : SafeSetSVOptions)
    (msg : SafeSetMsg) :
    ((safeGetInclusionCheck c state key ventry = false ∨
      safeGetDualCheck c state key ventry = false) →
      (safeGetProcess c state key ventry).1 = []) ∧
    ((msg.leaf ≠ safeSetLocalDigest c rawRequest msg ∨
      c.proofsVerify msg msg.leaf root = false) →
      (safeSetProcess c root rawRequest msg).1 = []) := by
  constructor
  · intro h
    simp only [safeGetProcess]
    split
    · rfl
    · rename_i h1
      rcases h with h | h
      · exact absurd h h1
      · simp [h]
  · intro h
    simp only [safeSetProcess]
    split
    · rfl
    · rename_i h1
      rcases h with h | h
      · exact absurd h h1
      · simp [h]

/-- Claim C5: whenever every verification check passes, the trust-anchor
cache is advanced via `rs.set` with the newly verified state and the
returned response carries `verified = true` — for verifiedGet
(`safeGet.call`, which stores the direction's target id and alh plus the
server signature) and for `safeSet.call` (which stores the returned index
and root). -/
theorem c5_success_advances_cache (c : Crypto) (state : ImmutableState) (key : Bytes)
    (ventry : VerifiableEntry) (root : Root) (rawRequest : SafeSetSVOptions)
    (msg : SafeSetMsg) :
    (safeGetInclusionCheck c state key ventry = true →
     safeGetDualCheck c state key ventry = true →
      (safeGetProcess c state key ventry).1 =
        [⟨(safeGetDir c state key ventry).targetid,
          (safeGetDir c state key ventry).targetalh,
          ventry.verifiableTx.signature⟩] ∧
      ∃ r, (safeGetProcess c state key ventry).2 = .ok r ∧ r.verified = true) ∧
    (msg.leaf = safeSetLocalDigest c rawRequest msg →
     c.proofsVerify msg msg.leaf root = true →
      (safeSetProcess c root rawRequest msg).1 = [⟨msg.index, msg.root⟩] ∧
      ∃ r, (safeSetProcess c root rawRequest msg).2 = .ok r ∧ r.verified = true) := by
  constructor
  · intro h1 h2
    simp [safeGetProcess, h1, h2]
  · intro h1 h2
    have h2x : c.proofsVerify msg (safeSetLocalDigest c rawRequest msg) root = true := h1 ▸ h2
    simp [safeSetProcess, h1, h2x]

/-- Claim C4 counterexample: a concrete `safeSet.call` in which the
combined proof verification (dual-proof check) fails, yet the call raises
no error and returns the full response payload (with `verified = false`)
— contradicting "the failure is surfaced to the caller and no payload is
returned". -/
theorem c4_counterexample :
    cNoProof.proofsVerify msgOkLeaf msgOkLeaf.leaf rootZ = false ∧
    (safeSetCall cNoProof (fun _ => msgOkLeaf) rootZ 0 [5] [6]).2 =
      .ok ⟨1, [1, 5, 0, 6], [7], 2, [], [], false⟩ :=
  ⟨rfl, rfl⟩

/-- Claim C4 amended: in verifiedGet (`safeGet.call`) any failing check
raises `VerificationException` and returns no payload, and in
`safeSet.call` a failing leaf-digest check raises and returns no payload;
but when `safeSet.call`'s combined proof verification fails, the call
raises nothing and returns the payload with `verified = false` (the cache
is still left untouched). -/
theorem c4_amended (c : Crypto) (state : ImmutableState) (key : Bytes)
    (ventry : VerifiableEntry) (root : Root) (rawRequest : SafeSetSVOptions)
    (msg : SafeSetMsg) :
    ((safeGetInclusionCheck c state key ventry = false ∨
      safeGetDualCheck c state key ventry = false) →
      (safeGetProcess c state key ventry).2 = .error .verificationException) ∧
    (msg.leaf ≠ safeSetLocalDigest c rawRequest msg →
      (safeSetProcess c root rawRequest msg).2 =
        .error (.genericException proofMismatchMsg)) ∧
    (msg.leaf = safeSetLocalDigest c rawRequest msg →
     c.proofsVerify msg msg.leaf root = false →
      (safeSetProcess c root rawRequest msg).1 = [] ∧
      ∃ r, (safeSetProcess c root rawRequest msg).2 = .ok r ∧ r.verified = false) := by
  refine ⟨?_, ?_, ?_⟩
  · intro h
    simp only [safeGetProcess]
    split
    · rfl
    · rename_i h1
      rcases h with h | h
      · exact absurd h h1
      · simp [h]
  · intro h
    simp [safeSetProcess, h]
  · intro h1 h2
    have h2x : c.proofsVerify msg (safeSetLocalDigest c rawRequest msg) root = false := h1 ▸ h2
    simp [safeSetProcess, h1, h2x]

/-- Claim C8 counterexample: a concrete `safeSet.call` in which the
recomputed-digest comparison fails and the surfaced error is the plain
`Exception("Proof does not match the given item.")`, not a dedicated
tamper/verification error type. -/
theorem c8_counterexample :
    msgBadLeaf.leaf ≠ safeSetLocalDigest cTrue (safeSetRawRequest rootZ 0 [5] [6]) msgBadLeaf ∧
    (safeSetCall cTrue (fun _ => msgBadLeaf) rootZ 0 [5] [6]).2 =
      .error (.genericException proofMismatchMsg) ∧
    PyError.genericException proofMismatchMsg ≠ PyError.verificationException :=
  ⟨by decide, rfl, fun h => PyError.noConfusion h⟩

/-- Claim C8 amended: verifiedGet (`safeGet.call`) surfaces every check
failure as the dedicated `VerificationException`; `safeSet.call` surfaces
a leaf-digest failure as a plain `Exception` (not a dedicated verification
type) and surfaces a failing combined proof check not as an error at all
but only through the returned `verified = false` flag. -/
theorem c8_amended (c : Crypto) (state : ImmutableState) (key : Bytes)
    (ventry : VerifiableEntry) (root : Root) (rawRequest : SafeSetSVOptions)
    (msg : SafeSetMsg) :
    ((safeGetInclusionCheck c state key ventry = false ∨
      safeGetDualCheck c state key ventry = false) →
      (safeGetProcess c state key ventry).2 = .error .verificationException) ∧
    (msg.leaf ≠ safeSetLocalDigest c rawRequest msg →
      (safeSetProcess c root rawRequest msg).2 =
        .error (.genericException proofMismatchMsg)) ∧
    (msg.leaf = safeSetLocalDigest c rawRequest msg →
     c.proofsVerify msg msg.leaf root = false →
      okE (safeSetProcess c root rawRequest msg).2 = true) := by
  refine ⟨?_, ?_, ?_⟩
  · intro h
    simp only [safeGetProcess]
    split
    · rfl
    · rename_i h1
      rcases h with h | h
      · exact absurd h h1
      · simp [h]
  · intro h
    simp [safeSetProcess, h]
  · intro h1 h2
    simp [safeSetProcess, h1, okE]

/-- Claim C1 counterexample: two `safeSet.call` runs on server responses
that agree on every field except the server-supplied leaf digest
`msg.leaf` produce different outcomes — so the orchestrator does compare
against (and branch on) a server-supplied digest, contradicting "a
server-supplied digest is never trusted or compared against". -/
theorem c1_counterexample :
    msgOkLeaf = { msgBadLeaf with leaf := msgOkLeaf.leaf } ∧
    okE (safeSetCall cTrue (fun _ => msgOkLeaf) rootZ 0 [5] [6]).2 = true ∧
    okE (safeSetCall cTrue (fun _ => msgBadLeaf) rootZ 0 [5] [6]).2 = false :=
  ⟨rfl, rfl, rfl⟩

/-- Claim C1 amended: in verifiedGet (`safeGet.call`) the call outcome is
decided by checks whose leaf-digest argument is the locally recomputed
`kv.Digest()` (no server-supplied leaf digest exists in that path); in
`safeSet.call` the server-supplied `msg.leaf` is compared for equality
against the locally recomputed digest, a mismatch aborts the call, and on
every non-aborting path the value passed downstream equals the locally
recomputed digest — the call is extensionally identical to the variant
that passes the locally recomputed digest to `proofs.verify`. -/
theorem c1_amended (c : Crypto) (state : ImmutableState) (key : Bytes)
    (ventry : VerifiableEntry) (root : Root) (rawRequest : SafeSetSVOptions)
    (msg : SafeSetMsg) :
    (okE (safeGetProcess c state key ventry).2 =
      (c.verifyInclusion (c.inclusionProofFrom ventry.inclusionProof)
        (c.kvDigest (safeGetVTxKv c key ventry.entry).2)
        (safeGetDir c state key ventry).eh &&
       safeGetDualCheck c state key ventry)) ∧
    (safeSetProcess c root rawRequest msg = safeSetProcessSpecDigest c root rawRequest msg) := by
  constructor
  · simp only [safeGetProcess]
    split
    · rename_i h1
      simp only [safeGetInclusionCheck] at h1
      simp [okE, h1]
    · rename_i h1
      simp only [safeGetInclusionCheck] at h1
      simp only [Bool.not_eq_false] at h1
      split
      · rename_i h2
        simp [okE, h1, h2]
      · rename_i h2
        simp only [Bool.not_eq_false] at h2
        simp [okE, h1, h2]
  · simp only [safeSetProcess, safeSetProcessSpecDigest]
    split
    · rfl
    · rename_i h
      rw [ne_eq, not_not] at h
      rw [h]

/-- Claim C10: `convertResponse` maps a repeated composite container to
the Python list of its element-wise converted items, preserving order and
length; any other value whose class name has no counterpart in
`datatypesv2` is returned unchanged. -/
theorem c10_convert (known : List String) (items : List PyVal) :
    (convertResponse known (.repeated items) = .pyList (items.map (convertResponse known)) ∧
     (items.map (convertResponse known)).length = items.length) ∧
    (∀ v : PyVal, PyVal.className v ≠ ("RepeatedCompositeContainer") →
      known.contains (PyVal.className v) = false → convertResponse known v = v) := by
  constructor
  · exact ⟨by simp [convertResponse, convertList_eq_map], by simp⟩
  · intro v hcls hk
    cases v with
    | prim cls val => simp [convertResponse]
    | message cls fields =>
      simp only [PyVal.className] at hk
      have hk2 : cls ∉ known := by simpa using hk
      simp [convertResponse, hk2]
    | repeated items2 => exact absurd rfl hcls
    | pyList items2 => simp [convertResponse]
    | dataclass cls fields => simp [convertResponse]

/-- Witness for `c3_direction` at concrete inputs, exercising both the
forward (trusted txId 3 ≤ target 7) and swapped (target 7 < trusted 9)
directions. -/
theorem c3_direction_witness :
    safeGetDirection cTrue stA 7 dpA dpA =
      ⟨cTrue.digestFrom dpA.targetTxMetadata.eH, stA.txId, cTrue.digestFrom stA.txHash,
        7, cTrue.alh dpA.targetTxMetadata⟩ ∧
    safeGetDirection cTrue ⟨9, [9], []⟩ 7 dpA dpA =
      ⟨cTrue.digestFrom dpA.sourceTxMetadata.eH, 7, cTrue.alh dpA.sourceTxMetadata,
        (⟨9, [9], []⟩ : ImmutableState).txId,
        cTrue.digestFrom (⟨9, [9], []⟩ : ImmutableState).txHash⟩ :=
  ⟨(c3_direction cTrue stA [1] ventryA 7 dpA dpA).1 (by decide),
   (c3_direction cTrue ⟨9, [9], []⟩ [1] ventryA 7 dpA dpA).2.1 (by decide)⟩

/-- Witness for `c6_leaf_encoding` at a concrete plain entry and a
concrete reference entry. -/
theorem c6_leaf_encoding_witness :
    cTrue.kvDigest (safeGetVTxKv cTrue [1] entryPlain).2 =
      cTrue.kvDigest (cTrue.encodeKV [1] entryPlain.value) ∧
    cTrue.kvDigest (safeGetVTxKv cTrue [1] entryRef).2 =
      cTrue.kvDigest (cTrue.encodeReference [8] entryRef.key 4) :=
  ⟨(c6_leaf_encoding cTrue [1] entryPlain).1 rfl,
   (c6_leaf_encoding cTrue [1] entryRef).2.2 ⟨[8], 5, 4⟩ rfl (by decide)⟩

/-- Witness for `c9_written_txid_is_max`: a concrete successful call whose
written state has txId 7 = max 3 7. -/
theorem c9_written_txid_is_max_witness :
    (⟨7, [3], [4]⟩ : ImmutableState).txId =
      max stA.txId (safeGetVTxKv cTrue [1] ventryA.entry).1 ∧
    stA.txId ≤ (⟨7, [3], [4]⟩ : ImmutableState).txId :=
  c9_written_txid_is_max cTrue stA [1] ventryA ⟨7, [3], [4]⟩ (by decide)

/-- Witness for `c2_failure_leaves_cache`: a failing inclusion check in
verifiedGet and a failing leaf-digest check in safeSet, both leaving the
cache untouched. -/
theorem c2_failure_leaves_cache_witness :
    (safeGetProcess cFailInc stA [1] ventryA).1 = [] ∧
    (safeSetProcess cTrue rootZ (safeSetRawRequest rootZ 0 [5] [6]) msgBadLeaf).1 = [] :=
  ⟨(c2_failure_leaves_cache cFailInc stA [1] ventryA rootZ
      (safeSetRawRequest rootZ 0 [5] [6]) msgBadLeaf).1 (Or.inl (by decide)),
   (c2_failure_leaves_cache cTrue stA [1] ventryA rootZ
      (safeSetRawRequest rootZ 0 [5] [6]) msgBadLeaf).2 (Or.inl (by decide))⟩

/-- Witness for `c5_success_advances_cache`: concrete all-checks-pass runs
of both orchestrators. -/
theorem c5_success_advances_cache_witness :
    ((safeGetProcess cTrue stA [1] ventryA).1 =
        [⟨(safeGetDir cTrue stA [1] ventryA).targetid,
          (safeGetDir cTrue stA [1] ventryA).targetalh,
          ventryA.verifiableTx.signature⟩] ∧
      ∃ r, (safeGetProcess cTrue stA [1] ventryA).2 = .ok r ∧ r.verified = true) ∧
    ((safeSetProcess cTrue rootZ (safeSetRawRequest rootZ 0 [5] [6]) msgOkLeaf).1 =
        [⟨msgOkLeaf.index, msgOkLeaf.root⟩] ∧
      ∃ r, (safeSetProcess cTrue rootZ (safeSetRawRequest rootZ 0 [5] [6]) msgOkLeaf).2 =
        .ok r ∧ r.verified = true) :=
  ⟨(c5_success_advances_cache cTrue stA [1] ventryA rootZ
      (safeSetRawRequest rootZ 0 [5] [6]) msgOkLeaf).1 (by decide) (by decide),
   (c5_success_advances_cache cTrue stA [1] ventryA rootZ
      (safeSetRawRequest rootZ 0 [5] [6]) msgOkLeaf).2 (by decide) (by decide)⟩

/-- Witness for `c4_amended`: a failing inclusion check raising
`VerificationException`, a failing digest check raising the plain
exception, and a failing combined proof check returning an untouched cache
plus a payload with `verified = false`. -/
theorem c4_amended_witness :
    (safeGetProcess cFailInc stA [1] ventryA).2 = .error .verificationException ∧
    (safeSetProcess cTrue rootZ (safeSetRawRequest rootZ 0 [5] [6]) msgBadLeaf).2 =
      .error (.genericException proofMismatchMsg) ∧
    ((safeSetProcess cNoProof rootZ (safeSetRawRequest rootZ 0 [5] [6]) msgOkLeaf).1 = [] ∧
      ∃ r, (safeSetProcess cNoProof rootZ (safeSetRawRequest rootZ 0 [5] [6]) msgOkLeaf).2 =
        .ok r ∧ r.verified = false) :=
  ⟨(c4_amended cFailInc stA [1] ventryA rootZ
      (safeSetRawRequest rootZ 0 [5] [6]) msgBadLeaf).1 (Or.inl (by decide)),
   (c4_amended cTrue stA [1] ventryA rootZ
      (safeSetRawRequest rootZ 0 [5] [6]) msgBadLeaf).2.1 (by decide),
   (c4_amended cNoProof stA [1] ventryA rootZ
      (safeSetRawRequest rootZ 0 [5] [6]) msgOkLeaf).2.2 (by decide) (by decide)⟩

/-- Witness for `c8_amended`: a failing dual-proof check in verifiedGet
surfaced as the dedicated `VerificationException`, a failing digest check
in safeSet surfaced as the plain exception, and a failing combined proof
check surfaced as no error at all. -/
theorem c8_amended_witness :
    (safeGetProcess cFailDual stA [1] ventryA).2 = .error .verificationException ∧
    (safeSetProcess cTrue rootZ (safeSetRawRequest rootZ 0 [5] [6]) msgBadLeaf).2 =
      .error (.genericException proofMismatchMsg) ∧
    okE (safeSetProcess cNoProof rootZ (safeSetRawRequest rootZ 0 [5] [6]) msgOkLeaf).2 = true :=
  ⟨(c8_amended cFailDual stA [1] ventryA rootZ
      (safeSetRawRequest rootZ 0 [5] [6]) msgBadLeaf).1 (Or.inr (by decide)),
   (c8_amended cTrue stA [1] ventryA rootZ
      (safeSetRawRequest rootZ 0 [5] [6]) msgBadLeaf).2.1 (by decide),
   (c8_amended cNoProof stA [1] ventryA rootZ
      (safeSetRawRequest rootZ 0 [5] [6]) msgOkLeaf).2.2 (by decide) (by decide)⟩

/-- Witness for `c10_convert`: a one-element container is mapped to a
one-element Python list, and a primitive `int` (no `datatypesv2`
counterpart) is returned unchanged. -/
theorem c10_convert_witness :
    (convertResponse [] (.repeated [.prim ("int") 5]) =
      .pyList ([PyVal.prim ("int") 5].map (convertResponse [])) ∧
     ([PyVal.prim ("int") 5].map (convertResponse [])).length =
       [PyVal.prim ("int") 5].length) ∧
    convertResponse [] (.prim ("int") 5) = .prim ("int") 5 :=
  ⟨(c10_convert [] [.prim ("int") 5]).1,
   (c10_convert [] [.prim ("int") 5]).2 (.prim ("int") 5) (by decide) rfl⟩
